import Mathlib

/-!
Verification development for the MuZero training system in
stoix/systems/search/muzero.py.

Shallow embedding conventions:
* All machine floats are modelled as exact rationals (ℚ).
* The pluggable networks (representation, dynamics, actor, critic), the search
  procedure, the environment and the replay buffer are external collaborators in
  the source; they are modelled as function-valued fields of a collaborator
  record, exactly with the signatures the source calls them at.
* A batched array of shape [T] (one sampled window, one environment row) is a
  Lean list over the time axis.  The batched losses take a list of rows; the
  source's flat .mean() over the batch and time axes of equally long windows is
  the mean over the flattened list of per-element terms.
* jax.value_and_grad(f, has_aux=True) differentiates f with respect to its
  first positional argument only (argnums defaults to 0).  Differentiation of
  the abstract networks is modelled by an arbitrary functional deriv
  (respectively derivWM for the representation/dynamics parameter pair) carried
  by the collaborator record; every theorem below holds for every such
  functional, in particular for the true JAX derivative.
* jax.random.split(key) is an abstract split function returning the pair
  (new_key, sub_key), in the order the source unpacks it.
* optax update functions map (gradient, opt_state) to (update, new_opt_state),
  and optax.apply_updates adds the update to the parameters.
-/

/-- Per-objective parameters of the world model: the representation (encoder)
network parameters and the dynamics network parameters.  Each pluggable network
parameter tree is modelled as a single rational. -/
structure WorldModelParams where
  representation_params : ℚ
  dynamics_params : ℚ
deriving DecidableEq

/-- Prediction parameters: actor and critic network parameters. -/
structure ActorCriticParams where
  actor_params : ℚ
  critic_params : ℚ
deriving DecidableEq

/-- Full parameter tree, mirroring MZParams. -/
structure MZParams where
  prediction_params : ActorCriticParams
  world_model_params : WorldModelParams
deriving DecidableEq

/-- One optimiser state per objective, mirroring MZOptStates. -/
structure MZOptStates where
  actor_opt_state : ℚ
  critic_opt_state : ℚ
  world_model_opt_state : ℚ
deriving DecidableEq

/-- The distribution object returned by the actor network.  The source only
uses two operations on it: tfd.Categorical(probs=teacher).kl_divergence(self)
and self.entropy(); both are carried as data. -/
structure PolicyDist where
  klFromCategorical : List ℚ → ℚ
  entropy : ℚ

/-- The four pluggable network apply functions, with the signatures the source
calls them at. -/
structure Nets where
  representation_apply : ℚ → ℚ → ℚ
  dynamics_apply : ℚ → ℚ → ℚ → ℚ × ℚ
  actor_apply : ℚ → ℚ → PolicyDist
  critic_apply : ℚ → ℚ → ℚ

/-- One environment timestep: observation, reward, the timestep.last() flag and
the episode-metrics extras. -/
structure TimeStep where
  observation : ℚ
  reward : ℚ
  is_last : Bool
  info : ℚ
deriving DecidableEq

/-- The (log-wrapped) environment state; env_state is the inner state that the
source passes to root_fn. -/
structure EnvState where
  env_state : ℚ
deriving DecidableEq

/-- Root evaluation output handed to the search procedure. -/
structure RootFnOutput where
  prior_logits : List ℚ
  value : ℚ
  embedding : ℚ
deriving DecidableEq

/-- Output of the opaque search procedure: the chosen action, the visit-based
action weights, and the root node value statistic
(search_tree.node_values[ROOT_INDEX]). -/
structure SearchOutput where
  action : ℚ
  action_weights : List ℚ
  root_node_value : ℚ
deriving DecidableEq

/-- One recorded transition (AZTransition), one timestep of one row.  The third
field is the behaviour value diagnostic, named value as in the source type. -/
structure AZTransition where
  done : Bool
  action : ℚ
  value : ℚ
  reward : ℚ
  search_value : ℚ
  search_policy : List ℚ
  obs : ℚ
  info : ℚ
deriving DecidableEq

/-- One sampled window (a fixed-length contiguous subsequence for one row of
the sample batch): each AZTransition field becomes a list over the time axis. -/
structure AZSeqRow where
  done : List Bool
  action : List ℚ
  value : List ℚ
  reward : List ℚ
  search_value : List ℚ
  search_policy : List (List ℚ)
  obs : List ℚ
deriving DecidableEq

/-- The complete restartable learner snapshot, mirroring MZLearnerState. -/
structure MZLearnerState where
  params : MZParams
  opt_states : MZOptStates
  buffer_state : ℚ
  key : ℚ
  env_state : EnvState
  timestep : TimeStep

/-- The carry of the update-epoch scan: (params, opt_states, buffer_state, key). -/
structure UpdateState where
  params : MZParams
  opt_states : MZOptStates
  buffer_state : ℚ
  key : ℚ

/-- The configured system constants consumed by the losses. -/
structure SystemConfig where
  gamma : ℚ
  n_steps : ℕ
  ent_coef : ℚ
  vf_coef : ℚ

/-- Aggregated training diagnostics, mirroring the loss_info dictionary. -/
structure LossInfo where
  total_loss : ℚ
  value_loss : ℚ
  actor_loss : ℚ
  entropy : ℚ
  reward_loss : ℚ
deriving DecidableEq

/-- All external collaborators of the learner, with the signatures the source
calls them at (see the module docstring for deriv, derivWM and the update
functions). -/
structure Collab where
  nets : Nets
  root_fn : MZParams → ℚ → ℚ → RootFnOutput
  search : MZParams → ℚ → RootFnOutput → SearchOutput
  env_step : EnvState → ℚ → EnvState × TimeStep
  split : ℚ → ℚ × ℚ
  buffer_add : ℚ → List AZTransition → ℚ
  buffer_sample : ℚ → ℚ → List AZSeqRow
  deriv : (ℚ → ℚ) → ℚ → ℚ
  derivWM : (WorldModelParams → ℚ) → WorldModelParams → WorldModelParams
  actor_update : ℚ → ℚ → ℚ × ℚ
  critic_update : ℚ → ℚ → ℚ × ℚ
  world_model_update : WorldModelParams → ℚ → WorldModelParams × ℚ

/-- Mean of a list of rationals; jnp.mean / .mean() on the flattened terms.
The mean of an empty list is 0 (0 / 0 = 0 in ℚ). -/
def meanQ (l : List ℚ) : ℚ := l.sum / (l.length : ℚ)

/-- rlax.l2_loss: 0.5 * (predictions - targets) ** 2 (the Bishop convention,
as documented by rlax). -/
def l2_loss (p t : ℚ) : ℚ := (p - t) ^ 2 / 2

/-- Elementwise mean of a batch of per-row term lists (the source's .mean()
over the flattened [B, T] array). -/
def batchMean (rows : List (List ℚ)) : ℚ := meanQ rows.flatten

/-- The per-timestep actor policy distributions recomputed from the stored
observations: actor_apply on the freshly recomputed embedding
representation_apply(representation_params, obs). -/
def actor_dists (nets : Nets) (actor_params representation_params : ℚ)
    (row : AZSeqRow) : List PolicyDist :=
  row.obs.map (fun o => nets.actor_apply actor_params
    (nets.representation_apply representation_params o))

/-- The actor loss (lines 273-290): KL from the recorded search policy (fixed
teacher) to the recomputed actor policy, averaged, minus ent_coef times the
averaged entropy.  Returns (total_loss_actor, (actor_loss, entropy)). -/
def _actor_loss_fn (nets : Nets) (cfg : SystemConfig)
    (actor_params representation_params : ℚ) (b : List AZSeqRow) : ℚ × ℚ × ℚ :=
  let kl := batchMean (b.map (fun r =>
    List.zipWith (fun pol d => d.klFromCategorical pol)
      r.search_policy (actor_dists nets actor_params representation_params r)))
  let ent := batchMean (b.map (fun r =>
    (actor_dists nets actor_params representation_params r).map PolicyDist.entropy))
  (kl - cfg.ent_coef * ent, kl, ent)

/-- Modelled from the spec: batch_n_step_bootstrapped_returns is imported from
stoix.utils.multistep, which is not under src/.  This helper evaluates the
spec formula (section 4.4) from offset t onward with horizon n:
target = sum over i < m of (prod over j < i of d (t+j)) * r (t+i) plus
(prod over j < m of d (t+j)) * v (t+m-1), with m = min n (remaining length);
when t+n exceeds the sequence the largest available partial horizon is used
(the documented boundary policy).  Inputs are the already-sliced reward,
per-step discount and shifted bootstrap-value sequences the caller prepares. -/
def nStepReturnFrom : ℕ → List ℚ → List ℚ → List ℚ → ℚ
  | 0, _, _, _ => 0
  | 1, r0 :: _, d0 :: _, v0 :: _ => r0 + d0 * v0
  | Nat.succ (Nat.succ n), r0 :: r1 :: rs, d0 :: d1 :: ds, _ :: v1 :: vs =>
      r0 + d0 * nStepReturnFrom (Nat.succ n) (r1 :: rs) (d1 :: ds) (v1 :: vs)
  | Nat.succ _, r0 :: _, d0 :: _, v0 :: _ => r0 + d0 * v0
  | _, _, _, _ => 0

/-- Modelled from the spec: the full per-row n-step bootstrapped return
sequence, one target per entry of the reward sequence (all three inputs have
equal length in the caller). -/
def batch_n_step_bootstrapped_returns : List ℚ → List ℚ → List ℚ → ℕ → List ℚ
  | [], _, _, _ => []
  | r0 :: rs, d, v, n =>
      nStepReturnFrom n (r0 :: rs) d v ::
        batch_n_step_bootstrapped_returns rs d.tail v.tail n

/-- The truncated discounted sum with zero continuation value:
sum over i < m of (prod over j < i of d j) * r i. -/
def discountedSum : ℕ → List ℚ → List ℚ → ℚ
  | 0, _, _ => 0
  | Nat.succ m, r0 :: rs, d0 :: ds => r0 + d0 * discountedSum m rs ds
  | Nat.succ _, _, _ => 0

/-- The per-step discount sequence built by the critic loss (lines 302-304):
(1 - done) * gamma, i.e. 0 at terminal steps and gamma otherwise, with the
final timestep dropped. -/
def criticDiscounts (cfg : SystemConfig) (row : AZSeqRow) : List ℚ :=
  (row.done.map (fun b => if b then 0 else cfg.gamma)).dropLast

/-- The n-step bootstrap targets built by the critic loss (lines 301-309):
rewards without the final step, discounts without the final step, and search
values shifted forward by one step. -/
def criticTargets (cfg : SystemConfig) (row : AZSeqRow) : List ℚ :=
  batch_n_step_bootstrapped_returns row.reward.dropLast
    (criticDiscounts cfg row) row.search_value.tail cfg.n_steps

/-- The per-timestep value predictions of the critic loss before dropping the
final step: critic_apply on the freshly recomputed embeddings. -/
def criticValues (nets : Nets) (critic_params representation_params : ℚ)
    (row : AZSeqRow) : List ℚ :=
  row.obs.map (fun o => nets.critic_apply critic_params
    (nets.representation_apply representation_params o))

/-- The per-row critic l2 terms: rlax.l2_loss of the predictions without their
final step against the n-step targets. -/
def criticRowTerms (nets : Nets) (cfg : SystemConfig)
    (critic_params representation_params : ℚ) (row : AZSeqRow) : List ℚ :=
  List.zipWith l2_loss
    (criticValues nets critic_params representation_params row).dropLast
    (criticTargets cfg row)

/-- The critic loss (lines 292-314): vf_coef times the mean rlax.l2_loss of the
value predictions against the n-step bootstrap targets, the final timestep
excluded.  Returns (critic_total_loss, value_loss). -/
def _critic_loss_fn (nets : Nets) (cfg : SystemConfig)
    (critic_params representation_params : ℚ) (b : List AZSeqRow) : ℚ × ℚ :=
  let value_loss := batchMean
    (b.map (criticRowTerms nets cfg critic_params representation_params))
  (cfg.vf_coef * value_loss, value_loss)

/-- The initial latent of the world-model unroll: the representation network
applied to the stored observations, indexed at time 0 (line 322-326). -/
def initialEmbedding (nets : Nets) (representation_params : ℚ)
    (obs : List ℚ) : ℚ :=
  (obs.map (nets.representation_apply representation_params)).headI

/-- The left-to-right scan of unroll_fn (lines 328-340): the carry holds the
current latent and the dynamics parameters, each step applies dynamics_apply to
the recorded action and emits the predicted reward. -/
def unrollRewards (nets : Nets) (dynamics_params : ℚ) :
    ℚ → List ℚ → List ℚ
  | _, [] => []
  | emb, a :: as =>
      let step := nets.dynamics_apply dynamics_params emb a
      step.2 :: unrollRewards nets dynamics_params step.1 as

/-- The predicted reward sequence of the world-model loss for one row: unroll
the dynamics from the encoded first observation over the recorded actions. -/
def predictedRewards (nets : Nets) (wm : WorldModelParams)
    (row : AZSeqRow) : List ℚ :=
  unrollRewards nets wm.dynamics_params
    (initialEmbedding nets wm.representation_params row.obs) row.action

/-- The per-row world-model l2 terms: rlax.l2_loss of the predicted rewards
against the recorded rewards. -/
def wmRowTerms (nets : Nets) (wm : WorldModelParams) (row : AZSeqRow) : List ℚ :=
  List.zipWith l2_loss (predictedRewards nets wm row) row.reward

/-- The world-model loss (lines 316-352): the mean rlax.l2_loss between the
predicted and the recorded rewards over the full unroll (the masked variant is
commented out in the source; the active branch is the plain mean).
Returns (reward_loss, reward_loss). -/
def _world_model_loss_fn (nets : Nets) (wm : WorldModelParams)
    (b : List AZSeqRow) : ℚ × ℚ :=
  let reward_loss := batchMean (b.map (wmRowTerms nets wm))
  (reward_loss, reward_loss)

/-- The mean squared error between the predicted and the recorded rewards, as
the spec words the world-model loss (for comparison with the source's
rlax.l2_loss-based value). -/
def world_model_mse (nets : Nets) (wm : WorldModelParams)
    (b : List AZSeqRow) : ℚ :=
  batchMean (b.map (fun r =>
    List.zipWith (fun p t => (p - t) ^ 2) (predictedRewards nets wm r) r.reward))

/-- The mean squared error between the value predictions (final step excluded)
and the n-step targets, as the spec words the critic loss (for comparison). -/
def critic_mse (nets : Nets) (cfg : SystemConfig)
    (critic_params representation_params : ℚ) (b : List AZSeqRow) : ℚ :=
  batchMean (b.map (fun r =>
    List.zipWith (fun p t => (p - t) ^ 2)
      (criticValues nets critic_params representation_params r).dropLast
      (criticTargets cfg r)))

/-- jax.lax.pmean over the batch axis followed by pmean over the device axis
(lines 384-410): the outer list indexes device replicas, the inner list the
vmapped batch members on one device; the reduction every replica receives is
the mean over each device group followed by the mean over devices. -/
def pmeanBatchThenDevice (grid : List (List ℚ)) : ℚ :=
  meanQ (grid.map meanQ)

/-- Aggregation of one per-replica scalar (a gradient component or a loss
diagnostic) over the batch axis and then the device axis. -/
def aggGridBy {α : Type} (f : α → ℚ) (grid : List (List α)) : ℚ :=
  pmeanBatchThenDevice (grid.map (fun dev => dev.map f))

/-- The raw per-replica actor gradient: jax.value_and_grad differentiates
_actor_loss_fn with respect to its first argument, the actor parameters
(argnums defaults to 0). -/
def rawActorGrad (C : Collab) (cfg : SystemConfig) (p : MZParams)
    (b : List AZSeqRow) : ℚ :=
  C.deriv (fun a =>
      (_actor_loss_fn C.nets cfg a p.world_model_params.representation_params b).1)
    p.prediction_params.actor_params

/-- The raw per-replica actor loss diagnostics
(total_loss_actor, (actor_loss, entropy)). -/
def rawActorInfo (C : Collab) (cfg : SystemConfig) (p : MZParams)
    (b : List AZSeqRow) : ℚ × ℚ × ℚ :=
  _actor_loss_fn C.nets cfg p.prediction_params.actor_params
    p.world_model_params.representation_params b

/-- The raw per-replica critic gradient: jax.value_and_grad differentiates
_critic_loss_fn with respect to its first argument, the critic parameters. -/
def rawCriticGrad (C : Collab) (cfg : SystemConfig) (p : MZParams)
    (b : List AZSeqRow) : ℚ :=
  C.deriv (fun c =>
      (_critic_loss_fn C.nets cfg c p.world_model_params.representation_params b).1)
    p.prediction_params.critic_params

/-- The raw per-replica critic loss diagnostics (critic_total_loss, value_loss). -/
def rawCriticInfo (C : Collab) (cfg : SystemConfig) (p : MZParams)
    (b : List AZSeqRow) : ℚ × ℚ :=
  _critic_loss_fn C.nets cfg p.prediction_params.critic_params
    p.world_model_params.representation_params b

/-- The raw per-replica world-model gradient: jax.value_and_grad differentiates
_world_model_loss_fn with respect to its first argument, the pair of
representation and dynamics parameters. -/
def rawWorldModelGrad (C : Collab) (p : MZParams)
    (b : List AZSeqRow) : WorldModelParams :=
  C.derivWM (fun wm => (_world_model_loss_fn C.nets wm b).1) p.world_model_params

/-- The raw per-replica world-model loss diagnostics (reward_loss, reward_loss). -/
def rawWorldModelInfo (C : Collab) (p : MZParams)
    (b : List AZSeqRow) : ℚ × ℚ :=
  _world_model_loss_fn C.nets p.world_model_params b

/-- The post-sampling body of _update_epoch (lines 362-456) for the full grid
of replicas (device axis outside, vmapped batch axis inside; each replica has
sampled its own batch): compute the three per-replica losses and gradients,
aggregate gradients and loss diagnostics over the batch axis then the device
axis, apply the three optimiser updates to the aggregated gradients, and merge
the three updated subtrees back into one params/opt-state pair.  Every replica
receives the same aggregated values, hence the same new parameters. -/
def epochCore (C : Collab) (cfg : SystemConfig) (p : MZParams)
    (o : MZOptStates) (grid : List (List (List AZSeqRow))) :
    MZParams × MZOptStates × LossInfo :=
  let actor_grads := aggGridBy (rawActorGrad C cfg p) grid
  let actor_total := aggGridBy (fun b => (rawActorInfo C cfg p b).1) grid
  let actor_kl := aggGridBy (fun b => (rawActorInfo C cfg p b).2.1) grid
  let actor_ent := aggGridBy (fun b => (rawActorInfo C cfg p b).2.2) grid
  let critic_grads := aggGridBy (rawCriticGrad C cfg p) grid
  let critic_total := aggGridBy (fun b => (rawCriticInfo C cfg p b).1) grid
  let critic_vloss := aggGridBy (fun b => (rawCriticInfo C cfg p b).2) grid
  let wm_grads : WorldModelParams :=
    ⟨aggGridBy (fun b => (rawWorldModelGrad C p b).representation_params) grid,
     aggGridBy (fun b => (rawWorldModelGrad C p b).dynamics_params) grid⟩
  let wm_total := aggGridBy (fun b => (rawWorldModelInfo C p b).1) grid
  let wm_rloss := aggGridBy (fun b => (rawWorldModelInfo C p b).2) grid
  let au := C.actor_update actor_grads o.actor_opt_state
  let actor_new_params := p.prediction_params.actor_params + au.1
  let cu := C.critic_update critic_grads o.critic_opt_state
  let critic_new_params := p.prediction_params.critic_params + cu.1
  let wu := C.world_model_update wm_grads o.world_model_opt_state
  let world_model_new_params : WorldModelParams :=
    ⟨p.world_model_params.representation_params + wu.1.representation_params,
     p.world_model_params.dynamics_params + wu.1.dynamics_params⟩
  let new_params : MZParams :=
    ⟨⟨actor_new_params, critic_new_params⟩, world_model_new_params⟩
  let new_opt : MZOptStates := ⟨au.2, cu.2, wu.2⟩
  let loss_info : LossInfo :=
    ⟨actor_total + critic_total + wm_total, critic_vloss, actor_kl, actor_ent,
     wm_rloss⟩
  (new_params, new_opt, loss_info)

/-- One _update_epoch (lines 272-456) for a single replica (one device, one
vmapped batch member, the singleton grid): split the key, sample a batch from
the buffer, run the epoch core, and carry the buffer state through unchanged. -/
def _update_epoch (C : Collab) (cfg : SystemConfig) (s : UpdateState) :
    UpdateState × LossInfo :=
  let ks := C.split s.key
  let batch := C.buffer_sample s.buffer_state ks.2
  let res := epochCore C cfg s.params s.opt_states [[batch]]
  (⟨res.1, res.2.1, s.buffer_state, ks.1⟩, res.2.2)

/-- The scan of _update_epoch over config.system.epochs, keeping only the
carried state. -/
def epochsIter (C : Collab) (cfg : SystemConfig) : ℕ → UpdateState → UpdateState
  | 0, s => s
  | Nat.succ n, s => epochsIter C cfg n (_update_epoch C cfg s).1

/-- The learner rollout step _env_step (lines 221-259): split the key, evaluate
the root on the last observation, run the search, read off action, improved
policy and root value, evaluate the behaviour value on the freshly encoded last
observation, step the environment, and record the transition.  Parameters,
optimiser states and buffer state are carried through unchanged. -/
def learner_env_step (C : Collab) (s : MZLearnerState) :
    MZLearnerState × AZTransition :=
  let ks := C.split s.key
  let root := C.root_fn s.params s.timestep.observation s.env_state.env_state
  let search_output := C.search s.params ks.2 root
  let action := search_output.action
  let search_policy := search_output.action_weights
  let search_value := search_output.root_node_value
  let state_embedding := C.nets.representation_apply
    s.params.world_model_params.representation_params s.timestep.observation
  let behaviour_value := C.nets.critic_apply
    s.params.prediction_params.critic_params state_embedding
  let st := C.env_step s.env_state action
  let done := st.2.is_last
  let info := st.2.info
  let transition : AZTransition :=
    ⟨done, action, behaviour_value, st.2.reward, search_value, search_policy,
     s.timestep.observation, info⟩
  (⟨s.params, s.opt_states, s.buffer_state, ks.1, st.1, st.2⟩, transition)

/-- The warmup step _env_step (lines 136-174): the same computation on the
carry (env_state, last_timestep, key), with the parameters closed over and no
learner state threaded. -/
def warmup_env_step (C : Collab) (params : MZParams)
    (carry : EnvState × TimeStep × ℚ) :
    (EnvState × TimeStep × ℚ) × AZTransition :=
  let env_state := carry.1
  let last_timestep := carry.2.1
  let key := carry.2.2
  let ks := C.split key
  let root := C.root_fn params last_timestep.observation env_state.env_state
  let search_output := C.search params ks.2 root
  let action := search_output.action
  let search_policy := search_output.action_weights
  let search_value := search_output.root_node_value
  let state_embedding := C.nets.representation_apply
    params.world_model_params.representation_params last_timestep.observation
  let behaviour_value := C.nets.critic_apply
    params.prediction_params.critic_params state_embedding
  let st := C.env_step env_state action
  let done := st.2.is_last
  let info := st.2.info
  let transition : AZTransition :=
    ⟨done, action, behaviour_value, st.2.reward, search_value, search_policy,
     last_timestep.observation, info⟩
  ((st.1, st.2, ks.1), transition)

/-- The rollout scan of _env_step over config.system.rollout_length, collecting
the trajectory in time order. -/
def rolloutIter (C : Collab) : ℕ → MZLearnerState →
    MZLearnerState × List AZTransition
  | 0, s => (s, [])
  | Nat.succ n, s =>
      let st := learner_env_step C s
      let rest := rolloutIter C n st.1
      (rest.1, st.2 :: rest.2)

/-- The warmup scan of its _env_step over config.system.warmup_steps. -/
def warmupIter (C : Collab) (params : MZParams) :
    ℕ → (EnvState × TimeStep × ℚ) →
    (EnvState × TimeStep × ℚ) × List AZTransition
  | 0, c => (c, [])
  | Nat.succ n, c =>
      let st := warmup_env_step C params c
      let rest := warmupIter C params n st.1
      (rest.1, st.2 :: rest.2)

/-- One _update_step (lines 218-470) for a single replica: the COLLECT phase
(rollout for rollout_length steps, then one buffer add of the trajectory)
followed by the UPDATE phase (epochs update epochs on the new buffer state). -/
def _update_step (C : Collab) (cfg : SystemConfig)
    (rollout_length epochs : ℕ) (s : MZLearnerState) : MZLearnerState :=
  let ro := rolloutIter C rollout_length s
  let s1 := ro.1
  let buffer_state := C.buffer_add s1.buffer_state ro.2
  let us := epochsIter C cfg epochs
    ⟨s1.params, s1.opt_states, buffer_state, s1.key⟩
  ⟨us.params, us.opt_states, us.buffer_state, us.key, s1.env_state, s1.timestep⟩

/-- The supported search methods. -/
inductive SearchMethodKind where
  | muzero : SearchMethodKind
  | gumbel : SearchMethodKind
deriving DecidableEq

/-- Lowercasing of an identifier, modelling str.lower() character by
character. -/
def lowerChars (s : String) : List Char := s.data.map Char.toLower

/-- parse_search_method (lines 489-498): case-insensitive dispatch on the
configured identifier, raising ValueError on anything else. -/
def parse_search_method (search_method : String) :
    Except String SearchMethodKind :=
  if lowerChars search_method = "muzero".data then
    Except.ok SearchMethodKind.muzero
  else if lowerChars search_method = "gumbel".data then
    Except.ok SearchMethodKind.gumbel
  else
    Except.error ("Search method " ++ search_method ++ " not supported.")

/-- The stateful resources learner_setup builds after validation: environment
states, buffer state and the initial learner state.  They are carried as
abstract values; the theorems show failing validation yields a result
independent of them. -/
structure SetupResources where
  env_states_val : ℚ
  buffer_state_val : ℚ
  learner_state_val : ℚ

/-- The architecture configuration consumed by the validation checks. -/
structure ArchConfig where
  num_updates : ℕ
  num_evaluation : ℕ
  search_method : String

/-- learner_setup (lines 501-715), reduced to its validation-relevant control
flow: parse_search_method runs (line 619) before the buffer state (line 659),
the environment states (line 672) and the learner state (line 711) are built;
a parse failure propagates and no resource is produced. -/
def learner_setup_model (B : SetupResources) (search_method : String) :
    Except String (SearchMethodKind × ℚ × ℚ × ℚ) :=
  match parse_search_method search_method with
  | Except.error e => Except.error e
  | Except.ok m =>
      Except.ok (m, B.buffer_state_val, B.env_states_val, B.learner_state_val)

/-- run_experiment (lines 718-857), reduced to its validation-relevant control
flow: the assertion num_updates > num_evaluation (lines 725-727) runs before
learner_setup; a failed assertion raises before any stateful resource exists. -/
def run_experiment_model (B : SetupResources) (cfg : ArchConfig) :
    Except String (SearchMethodKind × ℚ × ℚ × ℚ) :=
  if cfg.num_updates > cfg.num_evaluation then
    learner_setup_model B cfg.search_method
  else
    Except.error
      "Number of updates per evaluation must be less than total number of updates."

/-- Projection used to state that the world-model loss consults only the first
observation, the action sequence and the recorded rewards of a row. -/
def wmView (row : AZSeqRow) : Option ℚ × List ℚ × List ℚ :=
  (row.obs.head?, row.action, row.reward)

/-- A row with its behaviour-value diagnostic field blanked; two rows agree on
every other field iff their images under this map are equal. -/
def eraseValue (row : AZSeqRow) : AZSeqRow :=
  { row with value := [] }

/-- A row with its recorded search policy blanked; used to state which parts of
the update are independent of the distillation teacher. -/
def eraseSearchPolicy (row : AZSeqRow) : AZSeqRow :=
  { row with search_policy := [] }

/-- The worked return-computation example of the spec: four steps, reward 1
everywhere, no termination, search value 5 everywhere. -/
def exRow : AZSeqRow :=
  ⟨[false, false, false, false], [0, 0, 0, 0], [0, 0, 0, 0], [1, 1, 1, 1],
   [5, 5, 5, 5], [[], [], [], []], [0, 0, 0, 0]⟩

/-- The configuration of the worked example: gamma = 0.9, n = 2. -/
def exCfg : SystemConfig := ⟨9 / 10, 2, 1 / 100, 1 / 2⟩

/-- Concrete networks used in counterexamples: identity encoder, dynamics that
carry the latent and predict reward 0. -/
def cxNets : Nets :=
  ⟨fun _ o => o, fun _ e _ => (e, 0), fun _ _ => ⟨fun _ => 0, 0⟩, fun _ _ => 0⟩

/-- Concrete world-model parameters for the counterexamples. -/
def cxWM : WorldModelParams := ⟨0, 0⟩

/-- A one-step window whose recorded reward is 2 while the predicted reward is
0, so that the l2 term is 2 but the squared error is 4. -/
def cxRow : AZSeqRow := ⟨[false], [0], [0], [2], [0], [[]], [0]⟩

/-- A window that differs from cxRow in done flag, behaviour value, search
value, search policy and the observation tail, but agrees on the first
observation, the actions and the rewards. -/
def cxRowB : AZSeqRow := ⟨[true], [0], [3], [2], [9], [[1]], [0, 77]⟩

/-- The critic-loss counterexample configuration: gamma = 0, n = 1,
vf_coef = 1. -/
def cx4Cfg : SystemConfig := ⟨0, 1, 0, 1⟩

/-- A two-step window for the critic-loss counterexample: the only value
prediction is 0 while the only target is 2. -/
def cx4Row : AZSeqRow :=
  ⟨[false, false], [0, 0], [0, 0], [2, 0], [0, 0], [[], []], [0, 0]⟩

/-- Concrete networks whose actor policy genuinely depends on the encoder
parameters and on the teacher policy: the embedding is p + o, the KL statistic
is actor + embedding + teacher sum, the entropy is the embedding. -/
def cNets3 : Nets :=
  ⟨fun p o => p + o, fun p e a => (e + a + p, e + a + p),
   fun a e => ⟨fun teacher => a + e + teacher.sum, e⟩, fun c e => c * e⟩

/-- A full concrete collaborator record over cNets3, with a finite-difference
derivative functional and sign-flip optimiser updates. -/
def cCollab3 : Collab :=
  ⟨cNets3,
   fun _ o s => ⟨[o], o, s⟩,
   fun _ k r => ⟨r.value + k, [1], r.value⟩,
   fun s a => (⟨s.env_state + a⟩, ⟨s.env_state + a, a, false, 0⟩),
   fun k => (k + 1, k + 2),
   fun bq tr => bq + tr.length,
   fun bq k => [⟨[false], [bq + k], [0], [1], [1], [[1]], [1]⟩],
   fun f x => f (x + 1) - f x,
   fun f w => ⟨f ⟨w.representation_params + 1, w.dynamics_params⟩ - f w,
               f ⟨w.representation_params, w.dynamics_params + 1⟩ - f w⟩,
   fun g s => (-g, s + 1),
   fun g s => (-g, s + 1),
   fun g s => (⟨-g.representation_params, -g.dynamics_params⟩, s + 1)⟩

/-- The configuration used with cCollab3. -/
def cCfg3 : SystemConfig := ⟨9 / 10, 1, 1 / 10, 1 / 2⟩

/-- Concrete parameters used with cCollab3. -/
def cP3 : MZParams := ⟨⟨1, 1⟩, ⟨1, 1⟩⟩

/-- Concrete optimiser states used with cCollab3. -/
def cO3 : MZOptStates := ⟨0, 0, 0⟩

/-- A one-step window with teacher policy [1]. -/
def r3 : AZSeqRow := ⟨[false], [1], [0], [1], [1], [[1]], [1]⟩

/-- The same window with teacher policy [1, 1] (teacher mass sum 2 instead of
1), changing the distillation loss but nothing else. -/
def r3p : AZSeqRow := ⟨[false], [1], [0], [1], [1], [[1, 1]], [1]⟩

/-- The same window with a different behaviour-value diagnostic. -/
def r9p : AZSeqRow := ⟨[false], [1], [42], [1], [1], [[1]], [1]⟩

/-- A concrete learner state used to instantiate hypotheses about the update
step. -/
def cState3 : MZLearnerState := ⟨cP3, cO3, 0, 0, ⟨0⟩, ⟨0, 0, false, 0⟩⟩

/-! ## Helper lemmas -/

theorem meanQ_singleton (x : ℚ) : meanQ [x] = x := by
  simp [meanQ]

theorem sum_map_half (l : List ℚ) :
    (l.map (fun x => x / 2)).sum = l.sum / 2 := by
  induction l with
  | nil => simp
  | cons a t ih => simp [ih]; ring

theorem meanQ_map_half (l : List ℚ) :
    meanQ (l.map (fun x => x / 2)) = meanQ l / 2 := by
  unfold meanQ
  rw [sum_map_half, List.length_map]
  ring

theorem batchMean_map_half (rows : List (List ℚ)) :
    batchMean (rows.map (List.map (fun x => x / 2))) = batchMean rows / 2 := by
  unfold batchMean
  rw [← List.map_flatten]
  exact meanQ_map_half _

theorem zipWith_l2_map_half (xs ys : List ℚ) :
    List.zipWith l2_loss xs ys =
      (List.zipWith (fun p t => (p - t) ^ 2) xs ys).map (fun x => x / 2) := by
  induction xs generalizing ys with
  | nil => simp
  | cons a t ih =>
    cases ys with
    | nil => simp
    | cons b u => simp [l2_loss, ih]

theorem map_congr_of_proj {α β γ : Type _} (proj : α → β) (f : α → γ)
    (hf : ∀ x y, proj x = proj y → f x = f y) :
    ∀ l l' : List α, l.map proj = l'.map proj → l.map f = l'.map f := by
  intro l
  induction l with
  | nil =>
    intro l' h
    cases l' with
    | nil => rfl
    | cons a' t' => simp at h
  | cons a t ih =>
    intro l' h
    cases l' with
    | nil => simp at h
    | cons a' t' =>
      simp only [List.map_cons, List.cons.injEq] at h ⊢
      exact ⟨hf a a' h.1, ih t' h.2⟩

theorem initialEmbedding_congr (nets : Nets) (p : ℚ) (o o' : List ℚ)
    (h : o.head? = o'.head?) :
    initialEmbedding nets p o = initialEmbedding nets p o' := by
  unfold initialEmbedding
  cases o with
  | nil =>
    cases o' with
    | nil => rfl
    | cons a' t' => simp at h
  | cons a t =>
    cases o' with
    | nil => simp at h
    | cons a' t' =>
      simp only [List.head?_cons, Option.some.injEq] at h
      simp [List.headI, h]

theorem wmRowTerms_congr (nets : Nets) (wm : WorldModelParams) :
    ∀ x y : AZSeqRow, wmView x = wmView y →
      wmRowTerms nets wm x = wmRowTerms nets wm y := by
  intro x y h
  unfold wmView at h
  simp only [Prod.mk.injEq] at h
  obtain ⟨h1, h2, h3⟩ := h
  unfold wmRowTerms predictedRewards
  rw [h2, h3, initialEmbedding_congr nets _ _ _ h1]

theorem wm_loss_eq_half_mse (nets : Nets) (wm : WorldModelParams)
    (b : List AZSeqRow) :
    (_world_model_loss_fn nets wm b).1 = world_model_mse nets wm b / 2 := by
  unfold _world_model_loss_fn world_model_mse
  have h : b.map (wmRowTerms nets wm) =
      (b.map (fun r => List.zipWith (fun p t => (p - t) ^ 2)
        (predictedRewards nets wm r) r.reward)).map (List.map (fun x => x / 2)) := by
    rw [List.map_map]
    exact List.map_congr_left (fun r _ => zipWith_l2_map_half _ _)
  rw [h, batchMean_map_half]

theorem critic_loss_eq_half_mse (nets : Nets) (cfg : SystemConfig)
    (cp rp : ℚ) (b : List AZSeqRow) :
    (_critic_loss_fn nets cfg cp rp b).1 =
      cfg.vf_coef * (critic_mse nets cfg cp rp b / 2) := by
  unfold _critic_loss_fn critic_mse
  have h : b.map (criticRowTerms nets cfg cp rp) =
      (b.map (fun r => List.zipWith (fun p t => (p - t) ^ 2)
        (criticValues nets cp rp r).dropLast (criticTargets cfg r))).map
          (List.map (fun x => x / 2)) := by
    rw [List.map_map]
    exact List.map_congr_left (fun r _ => zipWith_l2_map_half _ _)
  rw [h, batchMean_map_half]

theorem returns_length (r d v : List ℚ) (n : ℕ) :
    (batch_n_step_bootstrapped_returns r d v n).length = r.length := by
  induction r generalizing d v with
  | nil => simp [batch_n_step_bootstrapped_returns]
  | cons r0 rs ih => simp [batch_n_step_bootstrapped_returns, ih]

theorem returns_getElem? : ∀ (r d v : List ℚ) (n t : ℕ), t < r.length →
    (batch_n_step_bootstrapped_returns r d v n)[t]? =
      some (nStepReturnFrom n (r.drop t) (d.drop t) (v.drop t)) := by
  intro r
  induction r with
  | nil => intro d v n t ht; simp at ht
  | cons r0 rs ih =>
    intro d v n t ht
    cases t with
    | zero => simp [batch_n_step_bootstrapped_returns]
    | succ t =>
      have hd : d.drop (t + 1) = d.tail.drop t := by
        rw [← List.drop_one, List.drop_drop]
        congr 1
        omega
      have hv : v.drop (t + 1) = v.tail.drop t := by
        rw [← List.drop_one, List.drop_drop]
        congr 1
        omega
      simp only [batch_n_step_bootstrapped_returns, List.getElem?_cons_succ,
        List.drop_succ_cons, hd, hv]
      exact ih d.tail v.tail n t (by simpa using ht)

theorem nstep_trunc : ∀ (k n : ℕ) (r d v : List ℚ), k < n → k < r.length →
    k < d.length → k < v.length → d[k]? = some 0 →
    nStepReturnFrom n r d v = discountedSum (k + 1) r d := by
  intro k
  induction k with
  | zero =>
    intro n r d v hn hr hd hv h0
    obtain ⟨n', rfl⟩ : ∃ n', n = n' + 1 := ⟨n - 1, by omega⟩
    cases r with
    | nil => simp at hr
    | cons r0 rs =>
      cases d with
      | nil => simp at hd
      | cons d0 ds =>
        cases v with
        | nil => simp at hv
        | cons v0 vs =>
          have hd0 : d0 = 0 := by simpa using h0
          subst hd0
          cases n' with
          | zero => simp [nStepReturnFrom, discountedSum]
          | succ n'' =>
            cases rs with
            | nil => simp [nStepReturnFrom, discountedSum]
            | cons r1 rs' =>
              cases ds with
              | nil => simp [nStepReturnFrom, discountedSum]
              | cons d1 ds' =>
                cases vs with
                | nil => simp [nStepReturnFrom, discountedSum]
                | cons v1 vs' => simp [nStepReturnFrom, discountedSum]
  | succ k ihk =>
    intro n r d v hn hr hd hv h0
    obtain ⟨n'', rfl⟩ : ∃ m, n = m + 2 := ⟨n - 2, by omega⟩
    cases r with
    | nil => simp at hr
    | cons r0 rt =>
      cases rt with
      | nil => simp at hr
      | cons r1 rs =>
        cases d with
        | nil => simp at hd
        | cons d0 dt =>
          cases dt with
          | nil => simp at hd
          | cons d1 ds =>
            cases v with
            | nil => simp at hv
            | cons v0 vt =>
              cases vt with
              | nil => simp at hv
              | cons v1 vs =>
                simp only [nStepReturnFrom]
                rw [ihk (n'' + 1) (r1 :: rs) (d1 :: ds) (v1 :: vs) (by omega)
                  (by simpa using hr) (by simpa using hd) (by simpa using hv)
                  (by simpa using h0)]
                rfl

theorem actor_loss_map_eraseValue (nets : Nets) (cfg : SystemConfig)
    (a rp : ℚ) (b : List AZSeqRow) :
    _actor_loss_fn nets cfg a rp (b.map eraseValue) =
      _actor_loss_fn nets cfg a rp b := by
  unfold _actor_loss_fn
  rw [List.map_map, List.map_map]
  rfl

theorem critic_loss_map_eraseValue (nets : Nets) (cfg : SystemConfig)
    (cp rp : ℚ) (b : List AZSeqRow) :
    _critic_loss_fn nets cfg cp rp (b.map eraseValue) =
      _critic_loss_fn nets cfg cp rp b := by
  unfold _critic_loss_fn
  rw [List.map_map]
  rfl

theorem wm_loss_map_eraseValue (nets : Nets) (wm : WorldModelParams)
    (b : List AZSeqRow) :
    _world_model_loss_fn nets wm (b.map eraseValue) =
      _world_model_loss_fn nets wm b := by
  unfold _world_model_loss_fn
  rw [List.map_map]
  rfl

theorem critic_loss_map_eraseSP (nets : Nets) (cfg : SystemConfig)
    (cp rp : ℚ) (b : List AZSeqRow) :
    _critic_loss_fn nets cfg cp rp (b.map eraseSearchPolicy) =
      _critic_loss_fn nets cfg cp rp b := by
  unfold _critic_loss_fn
  rw [List.map_map]
  rfl

theorem wm_loss_map_eraseSP (nets : Nets) (wm : WorldModelParams)
    (b : List AZSeqRow) :
    _world_model_loss_fn nets wm (b.map eraseSearchPolicy) =
      _world_model_loss_fn nets wm b := by
  unfold _world_model_loss_fn
  rw [List.map_map]
  rfl

theorem epochsIter_buffer (C : Collab) (cfg : SystemConfig) :
    ∀ (n : ℕ) (u : UpdateState),
      (epochsIter C cfg n u).buffer_state = u.buffer_state := by
  intro n
  induction n with
  | zero => intro u; rfl
  | succ n ih =>
    intro u
    simp only [epochsIter]
    rw [ih]
    rfl

theorem rolloutIter_state (C : Collab) :
    ∀ (n : ℕ) (s : MZLearnerState),
      (rolloutIter C n s).1.params = s.params ∧
      (rolloutIter C n s).1.opt_states = s.opt_states ∧
      (rolloutIter C n s).1.buffer_state = s.buffer_state := by
  intro n
  induction n with
  | zero => intro s; exact ⟨rfl, rfl, rfl⟩
  | succ n ih =>
    intro s
    simp only [rolloutIter]
    exact ih (learner_env_step C s).1

theorem warmup_rollout_corr (C : Collab) (p : MZParams) (o : MZOptStates)
    (b : ℚ) :
    ∀ (n : ℕ) (e : EnvState) (t : TimeStep) (k : ℚ),
      warmupIter C p n (e, t, k) =
        (((rolloutIter C n ⟨p, o, b, k, e, t⟩).1.env_state,
          (rolloutIter C n ⟨p, o, b, k, e, t⟩).1.timestep,
          (rolloutIter C n ⟨p, o, b, k, e, t⟩).1.key),
         (rolloutIter C n ⟨p, o, b, k, e, t⟩).2) := by
  intro n
  induction n with
  | zero => intro e t k; rfl
  | succ n ih =>
    intro e t k
    have hstate : (learner_env_step C ⟨p, o, b, k, e, t⟩).1 =
        ⟨p, o, b, (warmup_env_step C p (e, t, k)).1.2.2,
         (warmup_env_step C p (e, t, k)).1.1,
         (warmup_env_step C p (e, t, k)).1.2.1⟩ := rfl
    have htr : (learner_env_step C ⟨p, o, b, k, e, t⟩).2 =
        (warmup_env_step C p (e, t, k)).2 := rfl
    have harg : (warmup_env_step C p (e, t, k)).1 =
        ((warmup_env_step C p (e, t, k)).1.1,
         (warmup_env_step C p (e, t, k)).1.2.1,
         (warmup_env_step C p (e, t, k)).1.2.2) := rfl
    simp only [warmupIter, rolloutIter]
    rw [hstate, htr, harg,
      ih (warmup_env_step C p (e, t, k)).1.1
        (warmup_env_step C p (e, t, k)).1.2.1
        (warmup_env_step C p (e, t, k)).1.2.2]

/-! ## Claim theorems -/

/-- Claim C1 (amended): the world-model loss encodes only the first timestep of
the sampled window, unrolls the dynamics as a pure left-to-right scan over the
recorded actions without re-consulting any later observation (the loss is
invariant under any change of the rows that preserves the first observation,
the actions and the rewards), and the returned loss equals HALF the mean
squared error between predicted and recorded rewards (the mean of the
rlax.l2_loss terms 0.5 * (p - t) ^ 2) over every timestep of the unroll. -/
theorem claim_C1 :
    (∀ (nets : Nets) (wm : WorldModelParams) (b : List AZSeqRow),
      (_world_model_loss_fn nets wm b).1 = world_model_mse nets wm b / 2) ∧
    (∀ (nets : Nets) (wm : WorldModelParams) (b bp : List AZSeqRow),
      b.map wmView = bp.map wmView →
      (_world_model_loss_fn nets wm b).1 = (_world_model_loss_fn nets wm bp).1) := by
  constructor
  · exact wm_loss_eq_half_mse
  · intro nets wm b bp h
    have hmap := map_congr_of_proj wmView (wmRowTerms nets wm)
      (wmRowTerms_congr nets wm) b bp h
    show batchMean (b.map (wmRowTerms nets wm)) =
      batchMean (bp.map (wmRowTerms nets wm))
    rw [hmap]

/-- Counterexample to claim C1 as stated: at a one-step window with recorded
reward 2 and predicted reward 0 the returned loss is 2, while the mean squared
error is 4. -/
theorem claim_C1_counterexample :
    (_world_model_loss_fn cxNets cxWM [cxRow]).1 ≠
      world_model_mse cxNets cxWM [cxRow] := by
  norm_num [_world_model_loss_fn, world_model_mse, wmRowTerms, predictedRewards,
    initialEmbedding, unrollRewards, l2_loss, batchMean, meanQ, cxNets, cxWM,
    cxRow]

/-- Witness for claim C1: two windows that agree on first observation, actions
and rewards but differ in done flag, behaviour value, search data and the
observation tail get the same world-model loss. -/
theorem claim_C1_witness :
    ([cxRow].map wmView = [cxRowB].map wmView) ∧
    (_world_model_loss_fn cxNets cxWM [cxRow]).1 =
      (_world_model_loss_fn cxNets cxWM [cxRowB]).1 :=
  ⟨by rfl, claim_C1.2 cxNets cxWM [cxRow] [cxRowB] (by rfl)⟩

/-- Claim C2: the critic-loss target construction computes n-step bootstrap
returns with per-step discount 0 at terminal steps and gamma otherwise; on
rewards [1,1,1,1], done [0,0,0,0], gamma 0.9, n 2, search values [5,5,5,5] the
first target is 1 + 0.9 * 1 + 0.81 * 5 = 5.95; and a zero discount at offset k
(a terminal flag) truncates every return crossing it to the finite-horizon
discounted sum with zero continuation past the boundary. -/
theorem claim_C2 :
    (criticTargets exCfg exRow).head? =
      some (1 + (9 / 10) * 1 + (9 / 10) ^ 2 * 5) ∧
    (∀ (cfg : SystemConfig) (row : AZSeqRow) (i : ℕ) (bi : Bool),
      row.done[i]? = some bi →
      (row.done.map (fun x => if x then 0 else cfg.gamma))[i]? =
        some (if bi then 0 else cfg.gamma)) ∧
    (∀ (r d v : List ℚ) (n t : ℕ), t < r.length →
      (batch_n_step_bootstrapped_returns r d v n)[t]? =
        some (nStepReturnFrom n (r.drop t) (d.drop t) (v.drop t))) ∧
    (∀ (r d v : List ℚ) (n k : ℕ), k < n → k < r.length → k < d.length →
      k < v.length → d[k]? = some 0 →
      nStepReturnFrom n r d v = discountedSum (k + 1) r d) := by
  refine ⟨?_, ?_, returns_getElem?, fun r d v n k hk hr hd hv h0 =>
    nstep_trunc k n r d v hk hr hd hv h0⟩
  · norm_num [criticTargets, criticDiscounts, batch_n_step_bootstrapped_returns,
      nStepReturnFrom, exCfg, exRow, List.dropLast]
  · intro cfg row i bi h
    simp [List.getElem?_map, h]

/-- Witness for claim C2: the truncation clause at a concrete input with a
terminal step at offset 0. -/
theorem claim_C2_witness :
    ((0:ℕ) < 2 ∧ (0:ℕ) < ([3] : List ℚ).length ∧
      (([0] : List ℚ))[0]? = some 0) ∧
    nStepReturnFrom 2 [3] [0] [7] = discountedSum (0 + 1) [3] [0] :=
  ⟨⟨by decide, by decide, by rfl⟩,
   claim_C2.2.2.2 [3] [0] [7] 2 0 (by decide) (by decide) (by decide) (by decide)
     (by rfl)⟩

/-- Claim C4 (amended): the critic loss equals vf_coef times HALF the mean
squared error (the mean of the rlax.l2_loss terms) between the current value
predictions and the n-step bootstrap targets, and the final timestep of the
sampled sequence is excluded: for a window of length T there are exactly T - 1
predictions, T - 1 targets and T - 1 loss terms. -/
theorem claim_C4 :
    (∀ (nets : Nets) (cfg : SystemConfig) (cp rp : ℚ) (b : List AZSeqRow),
      (_critic_loss_fn nets cfg cp rp b).1 =
        cfg.vf_coef * (critic_mse nets cfg cp rp b / 2)) ∧
    (∀ (nets : Nets) (cfg : SystemConfig) (cp rp : ℚ) (row : AZSeqRow),
      row.reward.length = row.obs.length →
      (criticRowTerms nets cfg cp rp row).length = row.obs.length - 1 ∧
      (criticTargets cfg row).length = row.obs.length - 1 ∧
      (criticValues nets cp rp row).dropLast.length = row.obs.length - 1) := by
  constructor
  · exact critic_loss_eq_half_mse
  · intro nets cfg cp rp row h
    have hval : (criticValues nets cp rp row).dropLast.length =
        row.obs.length - 1 := by
      simp [criticValues, List.length_dropLast]
    have htgt : (criticTargets cfg row).length = row.obs.length - 1 := by
      simp [criticTargets, returns_length, List.length_dropLast, h]
    refine ⟨?_, htgt, hval⟩
    simp [criticRowTerms, List.length_zipWith, hval, htgt]

/-- Counterexample to claim C4 as stated: at a two-step window with prediction
0 against target 2 and vf_coef 1 the critic loss is 2 while vf_coef times the
mean squared error is 4. -/
theorem claim_C4_counterexample :
    (_critic_loss_fn cxNets cx4Cfg 0 0 [cx4Row]).1 ≠
      cx4Cfg.vf_coef * critic_mse cxNets cx4Cfg 0 0 [cx4Row] := by
  norm_num [_critic_loss_fn, critic_mse, criticRowTerms, criticValues,
    criticTargets, criticDiscounts, batch_n_step_bootstrapped_returns,
    nStepReturnFrom, l2_loss, batchMean, meanQ, cxNets, cx4Cfg, cx4Row,
    List.dropLast]

/-- Witness for claim C4: the worked four-step window yields exactly three
critic loss terms. -/
theorem claim_C4_witness :
    (exRow.reward.length = exRow.obs.length) ∧
    (criticRowTerms cxNets exCfg 0 0 exRow).length = exRow.obs.length - 1 :=
  ⟨rfl, (claim_C4.2 cxNets exCfg 0 0 exRow rfl).1⟩

/-- Claim C5: gradients and loss diagnostics are averaged (a mean, not a sum)
over the batch axis and then over the device axis; on a single replica with a
single batch member the aggregation is the identity, and on two members it is
the arithmetic mean. -/
theorem claim_C5 :
    (∀ g : ℚ, pmeanBatchThenDevice [[g]] = g) ∧
    (∀ g1 g2 : ℚ, pmeanBatchThenDevice [[g1, g2]] = (g1 + g2) / 2) ∧
    (∀ g1 g2 : ℚ, pmeanBatchThenDevice [[g1], [g2]] = (g1 + g2) / 2) ∧
    (∀ (f : List AZSeqRow → ℚ) (b : List AZSeqRow), aggGridBy f [[b]] = f b) ∧
    (∀ (C : Collab) (cfg : SystemConfig) (p : MZParams) (b : List AZSeqRow),
      aggGridBy (rawActorGrad C cfg p) [[b]] = rawActorGrad C cfg p b ∧
      aggGridBy (rawCriticGrad C cfg p) [[b]] = rawCriticGrad C cfg p b ∧
      aggGridBy (fun x => (rawWorldModelGrad C p x).representation_params) [[b]] =
        (rawWorldModelGrad C p b).representation_params ∧
      aggGridBy (fun x => (rawWorldModelGrad C p x).dynamics_params) [[b]] =
        (rawWorldModelGrad C p b).dynamics_params ∧
      aggGridBy (fun x => (rawActorInfo C cfg p x).1) [[b]] =
        (rawActorInfo C cfg p b).1 ∧
      aggGridBy (fun x => (rawCriticInfo C cfg p x).2) [[b]] =
        (rawCriticInfo C cfg p b).2 ∧
      aggGridBy (fun x => (rawWorldModelInfo C p x).2) [[b]] =
        (rawWorldModelInfo C p b).2) := by
  have hsingle : ∀ g : ℚ, pmeanBatchThenDevice [[g]] = g := by
    intro g
    simp [pmeanBatchThenDevice, meanQ]
  have hagg : ∀ (f : List AZSeqRow → ℚ) (b : List AZSeqRow),
      aggGridBy f [[b]] = f b := by
    intro f b
    simp [aggGridBy, pmeanBatchThenDevice, meanQ]
  refine ⟨hsingle, ?_, ?_, hagg, fun C cfg p b =>
    ⟨hagg _ _, hagg _ _, hagg _ _, hagg _ _, hagg _ _, hagg _ _, hagg _ _⟩⟩
  · intro g1 g2
    simp [pmeanBatchThenDevice, meanQ]
  · intro g1 g2
    simp [pmeanBatchThenDevice, meanQ]

/-- Claim C3 (amended): the actor loss is the mean KL divergence from the
recorded search policy (fixed teacher) to the actor policy recomputed from the
stored observations, minus ent_coef times the mean entropy; but the gradient
used in the update is taken with respect to the actor parameters only
(jax.value_and_grad argnums 0), so the update leaves the world-model
(representation and dynamics) parameters, the critic parameters and their
optimiser states independent of the teacher policy and hence of the actor
loss: erasing the recorded search policy from the sampled batch does not
change them. -/
theorem claim_C3 :
    (∀ (nets : Nets) (cfg : SystemConfig) (a rp : ℚ) (b : List AZSeqRow),
      (_actor_loss_fn nets cfg a rp b).1 =
        batchMean (b.map (fun r =>
          List.zipWith (fun pol d => d.klFromCategorical pol)
            r.search_policy (actor_dists nets a rp r))) -
        cfg.ent_coef * batchMean (b.map (fun r =>
          (actor_dists nets a rp r).map PolicyDist.entropy))) ∧
    (∀ (C : Collab) (cfg : SystemConfig) (p : MZParams) (o : MZOptStates)
      (b1 b2 : List AZSeqRow),
      b1.map eraseSearchPolicy = b2.map eraseSearchPolicy →
      (epochCore C cfg p o [[b1]]).1.world_model_params =
        (epochCore C cfg p o [[b2]]).1.world_model_params ∧
      (epochCore C cfg p o [[b1]]).1.prediction_params.critic_params =
        (epochCore C cfg p o [[b2]]).1.prediction_params.critic_params ∧
      (epochCore C cfg p o [[b1]]).2.1.critic_opt_state =
        (epochCore C cfg p o [[b2]]).2.1.critic_opt_state ∧
      (epochCore C cfg p o [[b1]]).2.1.world_model_opt_state =
        (epochCore C cfg p o [[b2]]).2.1.world_model_opt_state) := by
  constructor
  · intro nets cfg a rp b
    rfl
  · intro C cfg p o b1 b2 h
    have hC : ∀ c rp, _critic_loss_fn C.nets cfg c rp b1 =
        _critic_loss_fn C.nets cfg c rp b2 := by
      intro c rp
      rw [← critic_loss_map_eraseSP C.nets cfg c rp b1, h,
        critic_loss_map_eraseSP]
    have hW : ∀ wm, _world_model_loss_fn C.nets wm b1 =
        _world_model_loss_fn C.nets wm b2 := by
      intro wm
      rw [← wm_loss_map_eraseSP C.nets wm b1, h, wm_loss_map_eraseSP]
    have e3 : rawCriticGrad C cfg p b1 = rawCriticGrad C cfg p b2 := by
      unfold rawCriticGrad
      have hfun : (fun c => (_critic_loss_fn C.nets cfg c
            p.world_model_params.representation_params b1).1) =
          (fun c => (_critic_loss_fn C.nets cfg c
            p.world_model_params.representation_params b2).1) := by
        funext c
        rw [hC]
      rw [hfun]
    have e4 : rawCriticInfo C cfg p b1 = rawCriticInfo C cfg p b2 := hC _ _
    have e5 : rawWorldModelGrad C p b1 = rawWorldModelGrad C p b2 := by
      unfold rawWorldModelGrad
      have hfun : (fun wm => (_world_model_loss_fn C.nets wm b1).1) =
          (fun wm => (_world_model_loss_fn C.nets wm b2).1) := by
        funext wm
        rw [hW]
      rw [hfun]
    have e6 : rawWorldModelInfo C p b1 = rawWorldModelInfo C p b2 := hW _
    refine ⟨?_, ?_, ?_, ?_⟩ <;>
      simp only [epochCore, aggGridBy, List.map_cons, List.map_nil, e3, e4, e5,
        e6]

/-- Counterexample to claim C3 as stated: with concrete networks the actor
loss does depend on the teacher policy and has a nonzero derivative in the
representation parameters, yet the representation parameters produced by the
update epoch are identical whichever teacher policy was recorded — the actor
loss gradient does not backpropagate into the representation encoder. -/
theorem claim_C3_counterexample :
    (_actor_loss_fn cNets3 cCfg3 1 1 [r3]).1 ≠
      (_actor_loss_fn cNets3 cCfg3 1 1 [r3p]).1 ∧
    cCollab3.deriv (fun rp => (_actor_loss_fn cNets3 cCfg3 1 rp [r3]).1) 1 ≠ 0 ∧
    (epochCore cCollab3 cCfg3 cP3 cO3 [[[r3]]]).1.world_model_params.representation_params =
      (epochCore cCollab3 cCfg3 cP3 cO3 [[[r3p]]]).1.world_model_params.representation_params := by
  refine ⟨?_, ?_, ?_⟩
  · norm_num [_actor_loss_fn, actor_dists, batchMean, meanQ, cNets3, cCfg3, r3,
      r3p]
  · norm_num [cCollab3, _actor_loss_fn, actor_dists, batchMean, meanQ, cNets3,
      cCfg3, r3]
  · norm_num [epochCore, aggGridBy, pmeanBatchThenDevice, meanQ, batchMean,
      rawActorGrad, rawActorInfo, rawCriticGrad, rawCriticInfo,
      rawWorldModelGrad, rawWorldModelInfo, _actor_loss_fn, _critic_loss_fn,
      _world_model_loss_fn, actor_dists, criticRowTerms, criticValues,
      criticTargets, criticDiscounts, batch_n_step_bootstrapped_returns,
      nStepReturnFrom, wmRowTerms, predictedRewards, initialEmbedding,
      unrollRewards, l2_loss, cCollab3, cNets3, cCfg3, cP3, cO3, r3, r3p,
      List.dropLast, List.headI]

/-- Witness for claim C3: two batches whose teacher policies differ leave the
world-model parameters of the update identical. -/
theorem claim_C3_witness :
    ([r3].map eraseSearchPolicy = [r3p].map eraseSearchPolicy) ∧
    (epochCore cCollab3 cCfg3 cP3 cO3 [[[r3]]]).1.world_model_params =
      (epochCore cCollab3 cCfg3 cP3 cO3 [[[r3p]]]).1.world_model_params :=
  ⟨by rfl, (claim_C3.2 cCollab3 cCfg3 cP3 cO3 [r3] [r3p] (by rfl)).1⟩

/-- Claim C9: the behaviour_value field of the sampled sequences is never
consumed by the update: two sampled batches that differ only in that field
produce identical losses, gradients, loss diagnostics, parameter updates and
optimiser states (two-run noninterference of the update epoch). -/
theorem claim_C9 :
    ∀ (C : Collab) (cfg : SystemConfig) (p : MZParams) (o : MZOptStates)
      (b1 b2 : List AZSeqRow),
      b1.map eraseValue = b2.map eraseValue →
      epochCore C cfg p o [[b1]] = epochCore C cfg p o [[b2]] := by
  intro C cfg p o b1 b2 h
  have hA : ∀ a rp, _actor_loss_fn C.nets cfg a rp b1 =
      _actor_loss_fn C.nets cfg a rp b2 := by
    intro a rp
    rw [← actor_loss_map_eraseValue C.nets cfg a rp b1, h,
      actor_loss_map_eraseValue]
  have hC : ∀ c rp, _critic_loss_fn C.nets cfg c rp b1 =
      _critic_loss_fn C.nets cfg c rp b2 := by
    intro c rp
    rw [← critic_loss_map_eraseValue C.nets cfg c rp b1, h,
      critic_loss_map_eraseValue]
  have hW : ∀ wm, _world_model_loss_fn C.nets wm b1 =
      _world_model_loss_fn C.nets wm b2 := by
    intro wm
    rw [← wm_loss_map_eraseValue C.nets wm b1, h, wm_loss_map_eraseValue]
  have e1 : rawActorGrad C cfg p b1 = rawActorGrad C cfg p b2 := by
    unfold rawActorGrad
    have hfun : (fun a => (_actor_loss_fn C.nets cfg a
          p.world_model_params.representation_params b1).1) =
        (fun a => (_actor_loss_fn C.nets cfg a
          p.world_model_params.representation_params b2).1) := by
      funext a
      rw [hA]
    rw [hfun]
  have e2 : rawActorInfo C cfg p b1 = rawActorInfo C cfg p b2 := hA _ _
  have e3 : rawCriticGrad C cfg p b1 = rawCriticGrad C cfg p b2 := by
    unfold rawCriticGrad
    have hfun : (fun c => (_critic_loss_fn C.nets cfg c
          p.world_model_params.representation_params b1).1) =
        (fun c => (_critic_loss_fn C.nets cfg c
          p.world_model_params.representation_params b2).1) := by
      funext c
      rw [hC]
    rw [hfun]
  have e4 : rawCriticInfo C cfg p b1 = rawCriticInfo C cfg p b2 := hC _ _
  have e5 : rawWorldModelGrad C p b1 = rawWorldModelGrad C p b2 := by
    unfold rawWorldModelGrad
    have hfun : (fun wm => (_world_model_loss_fn C.nets wm b1).1) =
        (fun wm => (_world_model_loss_fn C.nets wm b2).1) := by
      funext wm
      rw [hW]
    rw [hfun]
  have e6 : rawWorldModelInfo C p b1 = rawWorldModelInfo C p b2 := hW _
  simp only [epochCore, aggGridBy, List.map_cons, List.map_nil, e1, e2, e3, e4,
    e5, e6]

/-- Witness for claim C9: two batches differing only in the behaviour-value
diagnostic produce the same update-epoch result. -/
theorem claim_C9_witness :
    ([r3].map eraseValue = [r9p].map eraseValue) ∧
    epochCore cCollab3 cCfg3 cP3 cO3 [[[r3]]] =
      epochCore cCollab3 cCfg3 cP3 cO3 [[[r9p]]] :=
  ⟨by rfl, claim_C9 cCollab3 cCfg3 cP3 cO3 [r3] [r9p] (by rfl)⟩

/-- Claim C6: a warmup step and a learner rollout step given equal inputs
(params, env state, timestep, key) perform the identical computation: they
produce equal transitions and equal successor environment states, timesteps
and keys; the warmup loop as a whole produces the same trajectory as the
rollout loop while the rollout loop leaves params, optimiser states and buffer
state unchanged (warmup performs no parameter update). -/
theorem claim_C6 :
    ∀ (C : Collab) (p : MZParams) (o : MZOptStates) (b k : ℚ) (e : EnvState)
      (t : TimeStep) (n : ℕ),
      (warmup_env_step C p (e, t, k)).2 =
        (learner_env_step C ⟨p, o, b, k, e, t⟩).2 ∧
      (warmup_env_step C p (e, t, k)).1.1 =
        (learner_env_step C ⟨p, o, b, k, e, t⟩).1.env_state ∧
      (warmup_env_step C p (e, t, k)).1.2.1 =
        (learner_env_step C ⟨p, o, b, k, e, t⟩).1.timestep ∧
      (warmup_env_step C p (e, t, k)).1.2.2 =
        (learner_env_step C ⟨p, o, b, k, e, t⟩).1.key ∧
      (learner_env_step C ⟨p, o, b, k, e, t⟩).1.params = p ∧
      (learner_env_step C ⟨p, o, b, k, e, t⟩).1.opt_states = o ∧
      (learner_env_step C ⟨p, o, b, k, e, t⟩).1.buffer_state = b ∧
      (warmupIter C p n (e, t, k)).2 = (rolloutIter C n ⟨p, o, b, k, e, t⟩).2 ∧
      (warmupIter C p n (e, t, k)).1.1 =
        (rolloutIter C n ⟨p, o, b, k, e, t⟩).1.env_state ∧
      (rolloutIter C n ⟨p, o, b, k, e, t⟩).1.params = p ∧
      (rolloutIter C n ⟨p, o, b, k, e, t⟩).1.opt_states = o ∧
      (rolloutIter C n ⟨p, o, b, k, e, t⟩).1.buffer_state = b := by
  intro C p o b k e t n
  have hcorr := warmup_rollout_corr C p o b n e t k
  obtain ⟨h1, h2, h3⟩ := rolloutIter_state C n ⟨p, o, b, k, e, t⟩
  exact ⟨rfl, rfl, rfl, rfl, rfl, rfl, rfl, congrArg Prod.snd hcorr,
    congrArg (fun x => x.1.1) hcorr, h1, h2, h3⟩

/-- Claim C7: the buffer state is mutated only by the single buffer add of the
COLLECT phase: one update step ends with the buffer equal to buffer_add applied
once to the starting buffer and the collected trajectory; the whole UPDATE
phase (any number of epochs) returns the buffer state unchanged; and sampling
is a pure function of the buffer state and the key, so equal keys yield equal
batches. -/
theorem claim_C7 :
    ∀ (C : Collab) (cfg : SystemConfig) (R E : ℕ) (s : MZLearnerState),
      (_update_step C cfg R E s).buffer_state =
        C.buffer_add s.buffer_state (rolloutIter C R s).2 ∧
      (∀ (u : UpdateState) (n : ℕ),
        (epochsIter C cfg n u).buffer_state = u.buffer_state) ∧
      (∀ (bs k1 k2 : ℚ), k1 = k2 →
        C.buffer_sample bs k1 = C.buffer_sample bs k2) := by
  intro C cfg R E s
  refine ⟨?_, fun u n => epochsIter_buffer C cfg n u,
    fun bs k1 k2 hk => by rw [hk]⟩
  show (epochsIter C cfg E
      ⟨(rolloutIter C R s).1.params, (rolloutIter C R s).1.opt_states,
       C.buffer_add (rolloutIter C R s).1.buffer_state (rolloutIter C R s).2,
       (rolloutIter C R s).1.key⟩).buffer_state =
    C.buffer_add s.buffer_state (rolloutIter C R s).2
  rw [epochsIter_buffer]
  show C.buffer_add (rolloutIter C R s).1.buffer_state (rolloutIter C R s).2 =
    C.buffer_add s.buffer_state (rolloutIter C R s).2
  rw [(rolloutIter_state C R s).2.2]

/-- Witness for claim C7: the sampling-determinism clause at a concrete buffer
state and key. -/
theorem claim_C7_witness :
    ((1 : ℚ) = 1) ∧ cCollab3.buffer_sample 0 1 = cCollab3.buffer_sample 0 1 :=
  ⟨rfl, (claim_C7 cCollab3 cCfg3 0 0 cState3).2.2 0 1 1 rfl⟩

/-- Claim C8: configuration validation failures are fatal and happen before
any stateful resource is built: an identifier other than case-insensitive
muzero or gumbel makes parse_search_method raise, a num_updates that is not
strictly greater than num_evaluation makes the run assertion raise, and in
both failing cases the run result is an error that is independent of the
resources the setup would build (so no environment state, buffer state or
learner state is consulted or produced). -/
theorem claim_C8 :
    (∀ s : String, lowerChars s ≠ "muzero".data → lowerChars s ≠ "gumbel".data →
      parse_search_method s =
        Except.error ("Search method " ++ s ++ " not supported.")) ∧
    (∀ s : String, lowerChars s = "muzero".data →
      parse_search_method s = Except.ok SearchMethodKind.muzero) ∧
    (∀ s : String, lowerChars s = "gumbel".data →
      parse_search_method s = Except.ok SearchMethodKind.gumbel) ∧
    (∀ (B Bp : SetupResources) (cfg : ArchConfig),
      ¬ (cfg.num_updates > cfg.num_evaluation) →
      run_experiment_model B cfg = Except.error
        "Number of updates per evaluation must be less than total number of updates." ∧
      run_experiment_model B cfg = run_experiment_model Bp cfg) ∧
    (∀ (B Bp : SetupResources) (cfg : ArchConfig),
      lowerChars cfg.search_method ≠ "muzero".data →
      lowerChars cfg.search_method ≠ "gumbel".data →
      (∃ e, run_experiment_model B cfg = Except.error e) ∧
      run_experiment_model B cfg = run_experiment_model Bp cfg) := by
  have hparse : ∀ s : String, lowerChars s ≠ "muzero".data →
      lowerChars s ≠ "gumbel".data →
      parse_search_method s =
        Except.error ("Search method " ++ s ++ " not supported.") := by
    intro s h1 h2
    simp [parse_search_method, h1, h2]
  refine ⟨hparse, ?_, ?_, ?_, ?_⟩
  · intro s h1
    simp [parse_search_method, h1]
  · intro s h2
    have h1 : lowerChars s ≠ "muzero".data := by
      rw [h2]
      decide
    simp [parse_search_method, h1, h2]
  · intro B Bp cfg hc
    constructor <;> simp [run_experiment_model, hc]
  · intro B Bp cfg h1 h2
    by_cases hc : cfg.num_updates > cfg.num_evaluation
    · refine ⟨⟨"Search method " ++ cfg.search_method ++ " not supported.", ?_⟩, ?_⟩
      · simp [run_experiment_model, hc, learner_setup_model,
          hparse cfg.search_method h1 h2]
      · simp [run_experiment_model, hc, learner_setup_model,
          hparse cfg.search_method h1 h2]
    · refine ⟨⟨"Number of updates per evaluation must be less than total number of updates.", ?_⟩, ?_⟩
      · simp [run_experiment_model, hc]
      · simp [run_experiment_model, hc]

/-- Witness for claim C8: the identifier alphazero is rejected with the exact
error message, and a run with 3 updates and 5 evaluations fails identically
for two different resource builders. -/
theorem claim_C8_witness :
    (lowerChars "alphazero" ≠ "muzero".data ∧
      lowerChars "alphazero" ≠ "gumbel".data ∧
      parse_search_method "alphazero" =
        Except.error ("Search method " ++ "alphazero" ++ " not supported.")) ∧
    (¬ ((⟨3, 5, "muzero"⟩ : ArchConfig).num_updates >
        (⟨3, 5, "muzero"⟩ : ArchConfig).num_evaluation) ∧
      run_experiment_model ⟨0, 0, 0⟩ ⟨3, 5, "muzero"⟩ =
        run_experiment_model ⟨1, 2, 3⟩ ⟨3, 5, "muzero"⟩) :=
  ⟨⟨by decide, by decide, claim_C8.1 "alphazero" (by decide) (by decide)⟩,
   ⟨by decide,
    (claim_C8.2.2.2.1 ⟨0, 0, 0⟩ ⟨1, 2, 3⟩ ⟨3, 5, "muzero"⟩ (by decide)).2⟩⟩

/-- Claim C10: every transition recorded by a warmup step or a rollout step
pairs the pre-step observation with post-step outcomes: its obs field is the
observation before the environment step, its done flag and reward come from
the timestep returned by that environment step, and its action, search policy
and search value come from the search invoked on the pre-step observation. -/
theorem claim_C10 :
    ∀ (C : Collab) (p : MZParams) (o : MZOptStates) (bq k : ℚ) (e : EnvState)
      (t : TimeStep),
      ((learner_env_step C ⟨p, o, bq, k, e, t⟩).2).obs = t.observation ∧
      ((learner_env_step C ⟨p, o, bq, k, e, t⟩).2).action =
        (C.search p (C.split k).2 (C.root_fn p t.observation e.env_state)).action ∧
      ((learner_env_step C ⟨p, o, bq, k, e, t⟩).2).search_policy =
        (C.search p (C.split k).2
          (C.root_fn p t.observation e.env_state)).action_weights ∧
      ((learner_env_step C ⟨p, o, bq, k, e, t⟩).2).search_value =
        (C.search p (C.split k).2
          (C.root_fn p t.observation e.env_state)).root_node_value ∧
      ((learner_env_step C ⟨p, o, bq, k, e, t⟩).2).done =
        (C.env_step e (C.search p (C.split k).2
          (C.root_fn p t.observation e.env_state)).action).2.is_last ∧
      ((learner_env_step C ⟨p, o, bq, k, e, t⟩).2).reward =
        (C.env_step e (C.search p (C.split k).2
          (C.root_fn p t.observation e.env_state)).action).2.reward ∧
      ((warmup_env_step C p (e, t, k)).2).obs = t.observation ∧
      ((warmup_env_step C p (e, t, k)).2).action =
        (C.search p (C.split k).2 (C.root_fn p t.observation e.env_state)).action ∧
      ((warmup_env_step C p (e, t, k)).2).search_policy =
        (C.search p (C.split k).2
          (C.root_fn p t.observation e.env_state)).action_weights ∧
      ((warmup_env_step C p (e, t, k)).2).search_value =
        (C.search p (C.split k).2
          (C.root_fn p t.observation e.env_state)).root_node_value ∧
      ((warmup_env_step C p (e, t, k)).2).done =
        (C.env_step e (C.search p (C.split k).2
          (C.root_fn p t.observation e.env_state)).action).2.is_last ∧
      ((warmup_env_step C p (e, t, k)).2).reward =
        (C.env_step e (C.search p (C.split k).2
          (C.root_fn p t.observation e.env_state)).action).2.reward := by
  intro C p o bq k e t
  exact ⟨rfl, rfl, rfl, rfl, rfl, rfl, rfl, rfl, rfl, rfl, rfl, rfl⟩
